import Mathlib

/-!
Verification of the mesh security-policy validation engine (swscore).

Part 1 shallowly embeds the mesh-wide mTLS checker from
`src/business/checkers/peerauthentications/mesh_mtls_checker.go`.
Part 2 shallowly embeds the dashboards service from `src/unnamed/part_000`
(package `business`, `DashboardsService`).

Helper functions of the repository living in the `kubernetes` and `models`
packages are not part of the given sources; those are modelled from the spec
and marked as such in their doc comments.
-/

namespace Swscore

/-- Modelled from the spec: the MTLSMode enum of the data model,
`{Unset, Permissive, Strict, Disable}`. -/
inductive MTLSMode where
  | Unset
  | Permissive
  | Strict
  | Disable
  deriving DecidableEq, Repr

/-- Modelled from the spec: `kubernetes.IstioObject` as used for a
PeerAuthentication policy, a ConfigObject carrying an mTLS mode; a missing
mode field is represented by `none` (to be treated as `Unset`). -/
structure IstioObject where
  mode : Option MTLSMode
  deriving DecidableEq, Repr

/-- Modelled from the spec: `kubernetes.PeerAuthnHasStrictMTLS` is not under
the given sources. Per the spec, a policy governs in Strict mode exactly when
its mode field is present and equals Strict; a ConfigObject missing the field
is treated as `Unset`/`Disable`, never raised as an error. -/
def PeerAuthnHasStrictMTLS (p : IstioObject) : Bool :=
  p.mode == some MTLSMode.Strict

/-- Modelled from the spec: a DestinationRule ConfigObject, with a host
pattern and an mTLS traffic-policy flag (mesh-managed vs. none); a missing
flag is `none`. -/
structure DestinationRule where
  host : String
  meshManagedMTLS : Option Bool
  deriving DecidableEq, Repr

/-- Modelled from the spec: `kubernetes.DestinationRuleHasMeshWideMTLSEnabled`
is not under the given sources. It reports whether the rule covers the
mesh-wide wildcard host and its traffic policy enables mesh-managed mTLS,
returning the flag together with the rule host (the checker discards the
second component). -/
def DestinationRuleHasMeshWideMTLSEnabled (dr : DestinationRule) : Bool × String :=
  (dr.host == "*.local" && dr.meshManagedMTLS == some true, dr.host)

/-- `kubernetes.MTLSDetails` as consumed by the checker: only its
`DestinationRules` field is read. -/
structure MTLSDetails where
  DestinationRules : List DestinationRule
  deriving DecidableEq, Repr

/-- Finding severity, per the spec: `{Error, Warning, Info}`. -/
inductive Severity where
  | error
  | warning
  | info
  deriving DecidableEq, Repr

/-- `models.IstioCheck`: a single finding `{code, severity, path}`. -/
structure IstioCheck where
  code : String
  severity : Severity
  path : String
  deriving DecidableEq, Repr

/-- Modelled from the spec: `models.Build` is not under the given sources.
It builds the finding registered for a stable check code at a given path;
per the spec the code `peerauthentication.mtls.destinationrulemissing` is an
Error-severity finding. -/
def Build (checkId : String) (path : String) : IstioCheck :=
  { code := checkId,
    severity :=
      if checkId = "peerauthentication.mtls.destinationrulemissing" then Severity.error
      else Severity.warning,
    path := path }

/-- Shallow embedding of the `MeshMtlsChecker` struct
(`mesh_mtls_checker.go`, lines 9-13). -/
structure MeshMtlsChecker where
  MeshPolicy : IstioObject
  MTLSDetails : Swscore.MTLSDetails
  IsServiceMesh : Bool
  deriving DecidableEq, Repr

/-- Shallow embedding of `MeshMtlsChecker.Check` (`mesh_mtls_checker.go`,
lines 15-34). The Go loop over `t.MTLSDetails.DestinationRules` returns on
the first rule for which `DestinationRuleHasMeshWideMTLSEnabled` is true and
the returned value does not depend on which rule matched, so the loop is
embedded as `List.any`. -/
def MeshMtlsChecker.Check (t : MeshMtlsChecker) : List IstioCheck × Bool :=
  let validations : List IstioCheck := []
  if PeerAuthnHasStrictMTLS t.MeshPolicy = false then
    (validations, true)
  else if t.MTLSDetails.DestinationRules.any
      (fun dr => (DestinationRuleHasMeshWideMTLSEnabled dr).1) then
    (validations, true)
  else
    (validations ++ [Build "peerauthentication.mtls.destinationrulemissing" "spec/mtls"], false)

/-- Claim C1: with a mesh-wide Strict policy and zero destination rules with
mesh-wide mTLS enabled, `Check` returns exactly one finding, that finding has
code `peerauthentication.mtls.destinationrulemissing` and path `spec/mtls`,
and the validity flag is false. -/
theorem check_strict_no_rule_one_finding (t : MeshMtlsChecker)
    (h1 : PeerAuthnHasStrictMTLS t.MeshPolicy = true)
    (h2 : ∀ dr ∈ t.MTLSDetails.DestinationRules,
      (DestinationRuleHasMeshWideMTLSEnabled dr).1 = false) :
    (t.Check).1.length = 1 ∧
      (∀ c ∈ (t.Check).1,
        c.code = "peerauthentication.mtls.destinationrulemissing" ∧ c.path = "spec/mtls") ∧
      (t.Check).2 = false := by
  have hany : t.MTLSDetails.DestinationRules.any
      (fun dr => (DestinationRuleHasMeshWideMTLSEnabled dr).1) = false := by
    rw [List.any_eq_false]
    intro dr hdr
    simp [h2 dr hdr]
  simp [MeshMtlsChecker.Check, h1, hany, Build]

/-- Witness for C1: a concrete Strict mesh policy with an empty destination
rule list produces exactly the missing-destination-rule Error finding. -/
theorem check_strict_no_rule_one_finding_witness :
    ((MeshMtlsChecker.Check ⟨⟨some MTLSMode.Strict⟩, ⟨[]⟩, false⟩).1.length = 1 ∧
      (∀ c ∈ (MeshMtlsChecker.Check ⟨⟨some MTLSMode.Strict⟩, ⟨[]⟩, false⟩).1,
        c.code = "peerauthentication.mtls.destinationrulemissing" ∧ c.path = "spec/mtls") ∧
      (MeshMtlsChecker.Check ⟨⟨some MTLSMode.Strict⟩, ⟨[]⟩, false⟩).2 = false) :=
  check_strict_no_rule_one_finding ⟨⟨some MTLSMode.Strict⟩, ⟨[]⟩, false⟩ (by decide)
    (by intro dr hdr; simp at hdr)

/-- Claim C2: when the mesh policy does not declare Strict mTLS, `Check`
returns the empty finding list and true, for every value of the destination
rules and of `IsServiceMesh` (so the result is independent of
`MTLSDetails.DestinationRules`). -/
theorem check_not_strict_short_circuit (policy : IstioObject)
    (details : MTLSDetails) (svc : Bool)
    (h : PeerAuthnHasStrictMTLS policy = false) :
    MeshMtlsChecker.Check ⟨policy, details, svc⟩ = ([], true) := by
  simp [MeshMtlsChecker.Check, h]

/-- Witness for C2: a Permissive policy short-circuits even with a
destination rule present. -/
theorem check_not_strict_short_circuit_witness :
    MeshMtlsChecker.Check
      ⟨⟨some MTLSMode.Permissive⟩, ⟨[⟨"*.local", some true⟩]⟩, true⟩ = ([], true) :=
  check_not_strict_short_circuit ⟨some MTLSMode.Permissive⟩
    ⟨[⟨"*.local", some true⟩]⟩ true (by decide)

/-- Claim C3: with a mesh-wide Strict policy and at least one destination
rule with mesh-wide mTLS enabled, `Check` returns the empty finding list and
true. -/
theorem check_strict_with_rule_valid (t : MeshMtlsChecker)
    (h1 : PeerAuthnHasStrictMTLS t.MeshPolicy = true)
    (h2 : ∃ dr ∈ t.MTLSDetails.DestinationRules,
      (DestinationRuleHasMeshWideMTLSEnabled dr).1 = true) :
    t.Check = ([], true) := by
  have hany : t.MTLSDetails.DestinationRules.any
      (fun dr => (DestinationRuleHasMeshWideMTLSEnabled dr).1) = true := by
    rw [List.any_eq_true]
    obtain ⟨dr, hdr, hen⟩ := h2
    exact ⟨dr, hdr, hen⟩
  simp [MeshMtlsChecker.Check, h1, hany]

/-- Witness for C3: a Strict policy together with a mesh-wide mTLS-enabling
destination rule validates with no findings. -/
theorem check_strict_with_rule_valid_witness :
    MeshMtlsChecker.Check
      ⟨⟨some MTLSMode.Strict⟩, ⟨[⟨"*.local", some true⟩]⟩, true⟩ = ([], true) :=
  check_strict_with_rule_valid ⟨⟨some MTLSMode.Strict⟩, ⟨[⟨"*.local", some true⟩]⟩, true⟩
    (by decide) ⟨⟨"*.local", some true⟩, by simp, by decide⟩

/-- Counterexample to C4: two destination rules covering the same mesh-wide
host with contradictory mTLS settings, one of them a qualifying mesh-wide
mTLS-enabling rule under a Strict policy. The claim says `Check` emits a
Warning "ambiguous destination rule" finding here; in fact `Check` returns
the empty finding list (so in particular no Warning finding) and true. -/
theorem check_no_ambiguity_warning_cex :
    MeshMtlsChecker.Check
      ⟨⟨some MTLSMode.Strict⟩,
        ⟨[⟨"*.local", some true⟩, ⟨"*.local", some false⟩]⟩, true⟩ = ([], true) ∧
    ∀ c ∈ (MeshMtlsChecker.Check
      ⟨⟨some MTLSMode.Strict⟩,
        ⟨[⟨"*.local", some true⟩, ⟨"*.local", some false⟩]⟩, true⟩).1,
      c.severity ≠ Severity.warning := by
  decide

/-- Claim C4 (amended): even when multiple destination rules cover the same
host with contradictory mTLS settings, `Check` emits no ambiguity Warning:
whenever some destination rule has mesh-wide mTLS enabled, it returns the
empty finding list and true. -/
theorem check_contradictory_rules_no_warning (t : MeshMtlsChecker)
    (h : ∃ dr ∈ t.MTLSDetails.DestinationRules,
      (DestinationRuleHasMeshWideMTLSEnabled dr).1 = true) :
    t.Check = ([], true) := by
  have hany : t.MTLSDetails.DestinationRules.any
      (fun dr => (DestinationRuleHasMeshWideMTLSEnabled dr).1) = true := by
    rw [List.any_eq_true]
    obtain ⟨dr, hdr, hen⟩ := h
    exact ⟨dr, hdr, hen⟩
  by_cases hs : PeerAuthnHasStrictMTLS t.MeshPolicy = false
  · simp [MeshMtlsChecker.Check, hs]
  · simp [MeshMtlsChecker.Check, hs, hany]

/-- Witness for the amended C4: a Strict policy with two contradictory rules
on the mesh-wide host, one enabling mTLS, gives no finding at all. -/
theorem check_contradictory_rules_no_warning_witness :
    MeshMtlsChecker.Check
      ⟨⟨some MTLSMode.Strict⟩,
        ⟨[⟨"*.local", some false⟩, ⟨"*.local", some true⟩]⟩, false⟩ = ([], true) :=
  check_contradictory_rules_no_warning
    ⟨⟨some MTLSMode.Strict⟩, ⟨[⟨"*.local", some false⟩, ⟨"*.local", some true⟩]⟩, false⟩
    ⟨⟨"*.local", some true⟩, by simp, by decide⟩

/-- Claim C5: for every checker input, the validity flag returned by `Check`
is false iff the returned finding list contains an Error-severity finding. -/
theorem check_invalid_iff_error_finding (t : MeshMtlsChecker) :
    (t.Check).2 = false ↔ ∃ c ∈ (t.Check).1, c.severity = Severity.error := by
  unfold MeshMtlsChecker.Check
  by_cases hs : PeerAuthnHasStrictMTLS t.MeshPolicy = false
  · simp [hs]
  · by_cases ha : t.MTLSDetails.DestinationRules.any
        (fun dr => (DestinationRuleHasMeshWideMTLSEnabled dr).1) = true
    · simp [hs, ha]
    · simp [hs, ha, Build]

/-- Claim C6: `Check` is deterministic: two checkers with the same
`MeshPolicy`, the same `MTLSDetails` and the same `IsServiceMesh` return
identical finding lists and equal validity flags. -/
theorem check_deterministic (t1 t2 : MeshMtlsChecker)
    (h1 : t1.MeshPolicy = t2.MeshPolicy)
    (h2 : t1.MTLSDetails = t2.MTLSDetails)
    (h3 : t1.IsServiceMesh = t2.IsServiceMesh) :
    t1.Check = t2.Check := by
  cases t1
  cases t2
  simp_all

/-- Witness for C6 at a concrete pair of equal inputs. -/
theorem check_deterministic_witness :
    MeshMtlsChecker.Check ⟨⟨some MTLSMode.Strict⟩, ⟨[]⟩, true⟩ =
      MeshMtlsChecker.Check ⟨⟨some MTLSMode.Strict⟩, ⟨[]⟩, true⟩ :=
  check_deterministic ⟨⟨some MTLSMode.Strict⟩, ⟨[]⟩, true⟩
    ⟨⟨some MTLSMode.Strict⟩, ⟨[]⟩, true⟩ rfl rfl rfl

/-- Claim C7: `Check` is total by construction in this embedding (it returns
a finding list and a flag on every input, with no error case in its type),
and a policy missing its mTLS mode field is not Strict, so `Check`
short-circuits to the empty finding list and true on such a policy — the
finding branch is reachable only through the explicit
missing-destination-rule check. -/
theorem check_total_missing_field_not_strict (details : MTLSDetails) (svc : Bool) :
    PeerAuthnHasStrictMTLS ⟨none⟩ = false ∧
      MeshMtlsChecker.Check ⟨⟨none⟩, details, svc⟩ = ([], true) := by
  refine ⟨by decide, ?_⟩
  simp [MeshMtlsChecker.Check, PeerAuthnHasStrictMTLS]

/-!
Part 2: the dashboards service (`src/unnamed/part_000`, package `business`).
The service's collaborators — the `KialiMonitoringInterface` dashboard
fetcher, the `prometheus.ClientInterface` fetchers, and the `models`
conversion helpers — are interfaces and functions outside the given sources;
they are passed as function parameters, mirroring the fields of
`DashboardsService` and the call sites. Metric and histogram payloads are
opaque type parameters `M` and `H`, errors are `E`, aggregation output is
`A`, and the base metrics query is `Q`. -/

/-- A chart of a dashboard template
(`kubernetes.MonitoringDashboardChart`): the dashboards service reads its
`MetricType` and `MetricName` fields. -/
structure MonitoringDashboardChart where
  Name : String
  MetricName : String
  MetricType : String
  deriving DecidableEq, Repr

/-- The spec of a dashboard template resource: title and charts; the
aggregation conversion consumes the whole spec. -/
structure MonitoringDashboardSpec where
  Title : String
  Charts : List MonitoringDashboardChart
  deriving DecidableEq, Repr

/-- A dashboard template resource as returned by the monitoring client:
`dashboard.Spec` is all the service reads. -/
structure MonitoringDashboardTemplate where
  Spec : MonitoringDashboardSpec
  deriving DecidableEq, Repr

/-- `models.Chart`: a filled chart. `CounterRate` and `Histogram` start out
absent (`nil` pointers in the source) and are filled from the time-series
backend. -/
structure Chart (M H : Type) where
  Name : String
  Unit : String
  Spans : Nat
  CounterRate : Option M := none
  Histogram : Option H := none

/-- `models.MonitoringDashboard`: the assembled result
`{Title, Charts, Aggregations}`. -/
structure MonitoringDashboard (M H A : Type) where
  Title : String
  Charts : List (Chart M H)
  Aggregations : A

/-- `prometheus.CustomMetricsQuery`: the fields the service reads, plus the
embedded base metrics query passed through to the fetchers. -/
structure CustomMetricsQuery (Q : Type) where
  BaseMetricsQuery : Q
  Namespace : String
  App : String
  Version : String
  ByLabels : List String

/-- The label selector string built by `GetDashboard` (part_000, lines
37-41): `{namespace="...",app="..."}` with an optional `,version="..."`.
(`\x7b` and `\x7d` are the literal braces.) -/
def buildLabels (ns app version : String) : String :=
  let labels := "\x7bnamespace=\"" ++ ns ++ "\",app=\"" ++ app ++ "\""
  let labels := if version ≠ "" then labels ++ ",version=\"" ++ version ++ "\"" else labels
  labels ++ "\x7d"

/-- The body of the per-chart goroutine of `GetDashboard` (part_000, lines
49-57): convert the template chart, then fill `CounterRate` from the rate
fetcher when the metric type is `counter`, otherwise fill `Histogram` from
the histogram fetcher. -/
def fillChart {M H Q : Type} (convertChart : MonitoringDashboardChart → Chart M H)
    (fetchRateRange : String → String → String → Q → M)
    (fetchHistogramRange : String → String → String → Q → H)
    (labels grouping : String) (q : Q)
    (chart : MonitoringDashboardChart) : Chart M H :=
  let c := convertChart chart
  if chart.MetricType = "counter" then
    { c with CounterRate := some (fetchRateRange chart.MetricName labels grouping q) }
  else
    { c with Histogram := some (fetchHistogramRange chart.MetricName labels grouping q) }

/-- Shallow embedding of `DashboardsService.GetDashboard` (part_000, lines
26-66). `mon` is the monitoring client's `GetDashboard` method,
`istioNamespace` is `config.Get().IstioNamespace`, and the remaining
function parameters are `models.ConvertChart`, `models.ConvertAggregations`
and the two prometheus fetchers. The parallel fan-out writing
`filledCharts[idx]` index-by-index and joining on the WaitGroup barrier is
embedded by its deterministic functional result, an index-preserving map
over the template's charts. -/
def GetDashboard {E M H A Q : Type}
    (mon : String → String → Except E MonitoringDashboardTemplate)
    (istioNamespace : String)
    (convertChart : MonitoringDashboardChart → Chart M H)
    (convertAggregations : MonitoringDashboardSpec → A)
    (fetchRateRange : String → String → String → Q → M)
    (fetchHistogramRange : String → String → String → Q → H)
    (params : CustomMetricsQuery Q) (template : String) :
    Except E (MonitoringDashboard M H A) :=
  let fill : MonitoringDashboardTemplate → Except E (MonitoringDashboard M H A) :=
    fun dashboard =>
      let labels := buildLabels params.Namespace params.App params.Version
      let grouping := String.intercalate "," params.ByLabels
      let filledCharts := dashboard.Spec.Charts.map
        (fillChart convertChart fetchRateRange fetchHistogramRange labels grouping
          params.BaseMetricsQuery)
      Except.ok
        { Title := dashboard.Spec.Title,
          Charts := filledCharts,
          Aggregations := convertAggregations dashboard.Spec }
  match mon params.Namespace template with
  | Except.ok dashboard => fill dashboard
  | Except.error _ =>
    match mon istioNamespace template with
    | Except.ok dashboard => fill dashboard
    | Except.error e => Except.error e

/-- Claim C9: `GetDashboard` fails exactly when both the lookup in the
requested namespace and the fallback lookup in the configured Istio
namespace fail; an `Except.error` result carries no dashboard, so no
partially filled dashboard escapes on the error path. -/
theorem getDashboard_fallback_error {E M H A Q : Type}
    (mon : String → String → Except E MonitoringDashboardTemplate)
    (istioNamespace : String)
    (convertChart : MonitoringDashboardChart → Chart M H)
    (convertAggregations : MonitoringDashboardSpec → A)
    (fetchRateRange : String → String → String → Q → M)
    (fetchHistogramRange : String → String → String → Q → H)
    (params : CustomMetricsQuery Q) (template : String) :
    (∃ e, GetDashboard mon istioNamespace convertChart convertAggregations
        fetchRateRange fetchHistogramRange params template = Except.error e) ↔
      ((∃ e, mon params.Namespace template = Except.error e) ∧
        (∃ e, mon istioNamespace template = Except.error e)) := by
  cases h1 : mon params.Namespace template with
  | ok d => simp [GetDashboard, h1]
  | error e1 =>
    cases h2 : mon istioNamespace template with
    | ok d => simp [GetDashboard, h1, h2]
    | error e2 => simp [GetDashboard, h1, h2]

/-- The checker-specific chart template of the Istio dashboard
(part_000, lines 68-71): a `models.Chart` plus the private reference key
used for template matching. -/
structure istioChart (M H : Type) where
  Chart : Swscore.Chart M H
  refName : String

/-- The hard-coded `istioCharts` table (part_000, lines 73-122). -/
def istioCharts (M H : Type) : List (istioChart M H) :=
  [ { Chart := { Name := "Request volume", Unit := "ops", Spans := 12 },
      refName := "request_count" },
    { Chart := { Name := "Request duration", Unit := "s", Spans := 12 },
      refName := "request_duration" },
    { Chart := { Name := "Request size", Unit := "B", Spans := 12 },
      refName := "request_size" },
    { Chart := { Name := "Response size", Unit := "B", Spans := 12 },
      refName := "response_size" },
    { Chart := { Name := "TCP received", Unit := "bps", Spans := 12 },
      refName := "tcp_received" },
    { Chart := { Name := "TCP sent", Unit := "bps", Spans := 12 },
      refName := "tcp_sent" } ]

set_option linter.dupNamespace false in
/-- The metrics fetched from prometheus (`GetMetrics` result): two maps from
reference name to counter metric and to histogram, embedded as partial
lookup functions. -/
structure Metrics (M H : Type) where
  Metrics : String → Option M
  Histograms : String → Option H

/-- `prometheus.IstioMetricsQuery`: `GetIstioDashboard` itself reads only
`Direction`; the whole query is handed to the metrics fetcher. -/
structure IstioMetricsQuery where
  Direction : String
  deriving DecidableEq, Repr

/-- Modelled from the spec: `models.PrepareIstioDashboard` is not under the
given sources. It prepares the empty dashboard shell for the given direction
with its aggregation label orientation (local label, remote label) and no
charts yet; the hard-coded charts are appended afterwards. -/
def PrepareIstioDashboard (M H : Type) (direction localLabel remoteLabel : String) :
    MonitoringDashboard M H (List String) :=
  { Title := direction ++ " Metrics", Charts := [], Aggregations := [localLabel, remoteLabel] }

/-- The body of the chart loop of `GetIstioDashboard` (part_000, lines
137-146): copy the template chart, then overwrite `CounterRate` and
`Histogram` with the fetched metric and histogram when present under the
chart's reference key. -/
def fillIstioChart {M H : Type} (metrics : Metrics M H) (chartTpl : istioChart M H) :
    Chart M H :=
  let newChart := chartTpl.Chart
  let newChart := match metrics.Metrics chartTpl.refName with
    | some metric => { newChart with CounterRate := some metric }
    | none => newChart
  match metrics.Histograms chartTpl.refName with
  | some histo => { newChart with Histogram := some histo }
  | none => newChart

/-- Shallow embedding of `DashboardsService.GetIstioDashboard` (part_000,
lines 125-148). `getMetrics` is the prometheus client's `GetMetrics`
method. -/
def GetIstioDashboard (E M H : Type)
    (getMetrics : IstioMetricsQuery → Metrics M H)
    (params : IstioMetricsQuery) :
    Except E (MonitoringDashboard M H (List String)) :=
  let dashboard :=
    if params.Direction = "inbound" then
      PrepareIstioDashboard M H "Inbound" "destination" "source"
    else
      PrepareIstioDashboard M H "Outbound" "source" "destination"
  let metrics := getMetrics params
  let newCharts := (istioCharts M H).map (fillIstioChart metrics)
  Except.ok { dashboard with Charts := dashboard.Charts ++ newCharts }

theorem fillIstioChart_Name {M H : Type} (metrics : Metrics M H)
    (chartTpl : istioChart M H) :
    (fillIstioChart metrics chartTpl).Name = chartTpl.Chart.Name := by
  unfold fillIstioChart
  cases metrics.Metrics chartTpl.refName <;>
    cases metrics.Histograms chartTpl.refName <;> rfl

/-- Claim C10: `GetIstioDashboard` never fails: for every query it returns a
dashboard (never an error), and that dashboard's chart list is exactly the
six hard-coded charts — Request volume, Request duration, Request size,
Response size, TCP received, TCP sent — in that fixed order, regardless of
which metrics the fetcher has. -/
theorem getIstioDashboard_total_six_charts (E M H : Type)
    (getMetrics : IstioMetricsQuery → Metrics M H)
    (params : IstioMetricsQuery) :
    ∃ d, GetIstioDashboard E M H getMetrics params = Except.ok d ∧
      d.Charts.map Chart.Name =
        ["Request volume", "Request duration", "Request size",
          "Response size", "TCP received", "TCP sent"] := by
  refine ⟨_, rfl, ?_⟩
  by_cases hdir : params.Direction = "inbound" <;>
    simp [hdir, PrepareIstioDashboard, istioCharts, fillIstioChart_Name]

end Swscore
